import Mathlib

/-!
Verification of the portfolio backend (Express + pg server in `server.ts`,
Zod schemas in `schema.ts`, relational schema in the SQL DDL).

The development shallowly embeds the request handlers as pure functions over
an explicit database state.  JSON request bodies are modelled by `JsonVal`;
JSON-typed columns are carried in the store as their stored text
(`Option String`), and the node-postgres result boundary (`pgJsonOut`) hands
handlers the driver-parsed value of a `json` column, so a handler-level
`JSON.parse` on such a value throws as it does in JS.  Each Express handler
becomes a function `DB → ... → Resp × DB` that follows the source control
flow line by line (auth guard, ownership check, Zod parse, parameterized
query, catch-all `500`).
-/

set_option maxRecDepth 4096

/-- JSON values, as produced by `express.json()` body parsing and by
`JSON.parse`.  Numbers are restricted to integers: every numeric literal in
this repository's payloads and stored JSON texts is an integer. -/
inductive JsonVal where
  | null
  | bool (b : Bool)
  | num (n : Int)
  | str (s : String)
  | arr (xs : List JsonVal)
  | obj (fs : List (String × JsonVal))

/-- The character `\x7b` (opening curly brace). -/
def lbrace : Char := Char.ofNat 123

/-- The character `\x7d` (closing curly brace). -/
def rbrace : Char := Char.ofNat 125

def isWsChar (c : Char) : Bool :=
  c = ' ' || c = '\n' || c = '\t' || c = '\r'

def skipWs : List Char → List Char
  | [] => []
  | c :: cs => if isWsChar c then skipWs cs else c :: cs

/-- JSON string-escape characters (`\uXXXX` escapes are not modelled; no JSON
text produced or stored by this repository contains them). -/
def escChar (c : Char) : Option Char :=
  if c = '"' then some '"'
  else if c = '\\' then some '\\'
  else if c = '/' then some '/'
  else if c = 'n' then some '\n'
  else if c = 't' then some '\t'
  else if c = 'r' then some '\r'
  else if c = 'b' then some (Char.ofNat 8)
  else if c = 'f' then some (Char.ofNat 12)
  else none

/-- Parse the body of a JSON string after the opening quote; returns the
decoded string and the remaining input. -/
def parseStrBody : List Char → Option (String × List Char)
  | [] => none
  | c :: cs =>
    if c = '"' then some ("", cs)
    else if c = '\\' then
      match cs with
      | [] => none
      | d :: cs2 =>
        match escChar d with
        | none => none
        | some e =>
          match parseStrBody cs2 with
          | none => none
          | some (s, r) => some (String.mk (e :: s.toList), r)
    else
      match parseStrBody cs with
      | none => none
      | some (s, r) => some (String.mk (c :: s.toList), r)

def takeDigits : List Char → (List Char × List Char)
  | [] => ([], [])
  | c :: cs =>
    if c.isDigit then
      let (ds, r) := takeDigits cs
      (c :: ds, r)
    else ([], c :: cs)

/-- Parse an integer JSON numeral (fraction/exponent forms do not occur in
this repository's JSON texts and are not modelled). -/
def parseNumFrom (cs : List Char) : Option (JsonVal × List Char) :=
  let (neg, cs1) :=
    match cs with
    | c :: r => if c = '-' then (true, r) else (false, cs)
    | [] => (false, cs)
  match takeDigits cs1 with
  | ([], _) => none
  | (ds, rest) =>
    let n : Nat := ds.foldl (fun a c => a * 10 + (c.toNat - 48)) 0
    some (.num (if neg then -(Int.ofNat n) else Int.ofNat n), rest)

def expectLit : List Char → List Char → Option (List Char)
  | [], cs => some cs
  | _, [] => none
  | l :: ls, c :: cs => if c = l then expectLit ls cs else none

mutual

/-- Fuel-indexed recursive-descent JSON value parser (model of `JSON.parse`
and of Postgres `json`/`jsonb` input validation). -/
def parseVal : Nat → List Char → Option (JsonVal × List Char)
  | 0, _ => none
  | Nat.succ fuel, cs =>
    match skipWs cs with
    | [] => none
    | c :: rest =>
      if c = lbrace then
        match skipWs rest with
        | c2 :: r2 =>
          if c2 = rbrace then some (.obj [], r2)
          else parseMembers fuel (c2 :: r2) []
        | [] => none
      else if c = '[' then
        match skipWs rest with
        | c2 :: r2 =>
          if c2 = ']' then some (.arr [], r2)
          else parseElems fuel (c2 :: r2) []
        | [] => none
      else if c = '"' then
        match parseStrBody rest with
        | some (s, r) => some (.str s, r)
        | none => none
      else if c = 't' then
        match expectLit ['r', 'u', 'e'] rest with
        | some r => some (.bool true, r)
        | none => none
      else if c = 'f' then
        match expectLit ['a', 'l', 's', 'e'] rest with
        | some r => some (.bool false, r)
        | none => none
      else if c = 'n' then
        match expectLit ['u', 'l', 'l'] rest with
        | some r => some (.null, r)
        | none => none
      else parseNumFrom (c :: rest)

/-- Parse the members of a JSON object (a key is expected next). -/
def parseMembers : Nat → List Char → List (String × JsonVal) →
    Option (JsonVal × List Char)
  | 0, _, _ => none
  | Nat.succ fuel, cs, acc =>
    match skipWs cs with
    | c :: rest =>
      if c = '"' then
        match parseStrBody rest with
        | some (k, r1) =>
          match skipWs r1 with
          | ':' :: r2 =>
            match parseVal fuel r2 with
            | some (v, r3) =>
              match skipWs r3 with
              | ',' :: r4 => parseMembers fuel r4 (acc ++ [(k, v)])
              | c2 :: r4 =>
                if c2 = rbrace then some (.obj (acc ++ [(k, v)]), r4)
                else none
              | [] => none
            | none => none
          | _ => none
        | none => none
      else none
    | [] => none

/-- Parse the elements of a JSON array (a value is expected next). -/
def parseElems : Nat → List Char → List JsonVal → Option (JsonVal × List Char)
  | 0, _, _ => none
  | Nat.succ fuel, cs, acc =>
    match parseVal fuel cs with
    | some (v, r1) =>
      match skipWs r1 with
      | ',' :: r2 => parseElems fuel r2 (acc ++ [v])
      | ']' :: r2 => some (.arr (acc ++ [v]), r2)
      | _ => none
    | none => none

end

/-- `JSON.parse` / Postgres json-text validation: parse a complete JSON value
with nothing but whitespace after it. -/
def jsonParse (s : String) : Option JsonVal :=
  match parseVal (s.length + 1) s.toList with
  | some (v, rest) => if skipWs rest = [] then some v else none
  | none => none

/-- Whether a string is accepted by the Postgres `json`/`jsonb` input
function. -/
def jsonTextOk (s : String) : Bool :=
  (jsonParse s).isSome

/-- String quoting for `JSON.stringify` (keys and values that this server
serializes contain no characters requiring escapes). -/
def jsonQuote (s : String) : String :=
  "\"" ++ s ++ "\""

/-- `JSON.stringify` of a string-keyed string map (JS object), insertion
order. -/
def stringifyRecord (m : List (String × String)) : String :=
  "\x7b" ++ String.intercalate ","
    (m.map (fun kv => jsonQuote kv.1 ++ ":" ++ jsonQuote kv.2)) ++ "\x7d"

/-- `JSON.stringify({ images: xs })`, as written to the `projects.images`
JSON column. -/
def stringifyImages (xs : List String) : String :=
  "\x7b\"images\":[" ++ String.intercalate "," (xs.map jsonQuote) ++ "]\x7d"

/-- ASCII model of JS `String.prototype.toLowerCase` (all emails and
filenames in this development are ASCII). -/
def jsToLowerCase (s : String) : String :=
  String.mk (s.toList.map Char.toLower)

/-- ASCII model of JS `String.prototype.trim`. -/
def jsTrim (s : String) : String :=
  String.mk (((s.toList.dropWhile isWsChar).reverse.dropWhile isWsChar).reverse)

/-- `email.toLowerCase().trim()`, as the server normalizes emails before
storing or looking them up. -/
def jsLowerTrim (s : String) : String :=
  jsTrim (jsToLowerCase s)

def splitOnChar (sep : Char) : List Char → List (List Char)
  | [] => [[]]
  | c :: cs =>
    let r := splitOnChar sep cs
    if c = sep then [] :: r
    else
      match r with
      | [] => [[c]]
      | g :: gs => (c :: g) :: gs

/-- Whether `pat` occurs as a (contiguous) substring of `s` — the semantics of
an unanchored regex literal test such as `/jpeg|jpg|png|gif|webp/.test(s)`. -/
def containsSub (s pat : String) : Bool :=
  let rec go : List Char → Bool
    | [] => pat.toList.isEmpty
    | c :: cs => pat.toList.isPrefixOf (c :: cs) || go cs
  go s.toList

/-- Model of Zod's `z.string().email()` acceptance: one `@` with a nonempty
local part and a dotted, nonempty domain, no spaces.  (Zod's exact regex is a
library detail; no claim in this development depends on its fine points.) -/
def isEmailLike (s : String) : Bool :=
  match splitOnChar '@' s.toList with
  | [lp, dp] =>
    !lp.isEmpty && !dp.isEmpty && dp.contains '.' &&
      dp.head? ≠ some '.' && dp.getLast? ≠ some '.' &&
      !s.toList.contains ' '
  | _ => false

/-- Model of Zod's `z.string().url()` acceptance (a `new URL()`-parseable
string; modelled as containing a scheme separator and no spaces — no claim
depends on its fine points). -/
def isUrlLike (s : String) : Bool :=
  containsSub s "://" && !s.toList.contains ' ' &&
    !(s.toList.head? = some ':')

/-- Model of Zod's `z.coerce.date()` acceptance (`new Date(s)` valid).
Date values are carried as their incoming string; no claim depends on date
parsing or on `toISOString` normalization. -/
def isDateLike (s : String) : Bool :=
  !s.isEmpty && s.toList.any Char.isDigit &&
    s.toList.all (fun c =>
      c.isDigit || c = '-' || c = ':' || c = 'T' || c = 'Z' || c = '.' ||
        c = ' ' || c = '+' || c = '/')

/-- A value of an `optional`/`nullable` Zod field: absent from the payload
(`undefined`), explicitly `null`, or a value.  Absence and `null` are kept
distinct because the dynamic update builder skips only `undefined`. -/
inductive Tri (α : Type) where
  | absent
  | null
  | val (a : α)
deriving DecidableEq

/-- `undefined` and `null` both reach the `pg` driver as SQL NULL. -/
def triToOpt {α} : Tri α → Option α
  | .absent => none
  | .null => none
  | .val a => some a

/-- Whether an `Object.entries` pass over the parsed payload sees this field
(Zod omits keys for absent optional fields; `null` is a present value). -/
def Tri.isPresent {α} : Tri α → Bool
  | .absent => false
  | _ => true

def asStr : JsonVal → Option String
  | .str s => some s
  | _ => none

/-- Required `z.string()` field. -/
def reqStr (fs : List (String × JsonVal)) (k : String) : Option String :=
  match fs.lookup k with
  | some (.str s) => some s
  | _ => none

/-- `z.string().nullable().optional()` field. -/
def optNulStr (fs : List (String × JsonVal)) (k : String) : Option (Tri String) :=
  match fs.lookup k with
  | none => some .absent
  | some .null => some .null
  | some (.str s) => some (.val s)
  | some _ => none

/-- `z.string().email().nullable().optional()` field. -/
def optNulEmail (fs : List (String × JsonVal)) (k : String) : Option (Tri String) :=
  match fs.lookup k with
  | none => some .absent
  | some .null => some .null
  | some (.str s) => if isEmailLike s then some (.val s) else none
  | some _ => none

/-- `z.string().url().nullable().optional()` field. -/
def optNulUrl (fs : List (String × JsonVal)) (k : String) : Option (Tri String) :=
  match fs.lookup k with
  | none => some .absent
  | some .null => some .null
  | some (.str s) => if isUrlLike s then some (.val s) else none
  | some _ => none

/-- `z.array(z.string()).nullable().optional()` field. -/
def optNulStrList (fs : List (String × JsonVal)) (k : String) :
    Option (Tri (List String)) :=
  match fs.lookup k with
  | none => some .absent
  | some .null => some .null
  | some (.arr xs) =>
    if xs.all (fun x => (asStr x).isSome) then some (.val (xs.filterMap asStr))
    else none
  | some _ => none

/-- `z.record(z.string(), z.string()).nullable().optional()` field. -/
def optNulRecord (fs : List (String × JsonVal)) (k : String) :
    Option (Tri (List (String × String))) :=
  match fs.lookup k with
  | none => some .absent
  | some .null => some .null
  | some (.obj kvs) =>
    if kvs.all (fun kv => (asStr kv.2).isSome) then
      some (.val (kvs.filterMap (fun kv => (asStr kv.2).map (fun s => (kv.1, s)))))
    else none
  | some _ => none

/-- `z.number().int().optional()` field (not nullable: an explicit `null`
fails validation). -/
def optInt (fs : List (String × JsonVal)) (k : String) : Option (Option Int) :=
  match fs.lookup k with
  | none => some none
  | some (.num n) => some (some n)
  | some _ => none

/-- `z.coerce.date()` required field; the date is carried as its incoming
string. -/
def reqDate (fs : List (String × JsonVal)) (k : String) : Option String :=
  match fs.lookup k with
  | some (.str s) => if isDateLike s then some s else none
  | _ => none

/-- `z.coerce.date().nullable().optional()` field. -/
def optNulDate (fs : List (String × JsonVal)) (k : String) : Option (Tri String) :=
  match fs.lookup k with
  | none => some .absent
  | some .null => some .null
  | some (.str s) => if isDateLike s then some (.val s) else none
  | some _ => none

/-- The handlers' `schema.parse({user_id, ...req.body})` merge: spread of the
body after the path parameter, so a `user_id` key in the body wins.  Lookups
take the first matching key, so the body's fields are listed first.
(Spreading a non-object body contributes no enumerable string-keyed fields
that any schema here reads.) -/
def withUserId (uid : String) (body : JsonVal) : JsonVal :=
  match body with
  | .obj fs => .obj (fs ++ [("user_id", .str uid)])
  | _ => .obj [("user_id", .str uid)]

/- ## Relational store (per the SQL DDL) -/

/-- A row of `users`. -/
structure UserRow where
  user_id : String
  email : String
  password_hash : String
  name : Option String
  created_at : String

/-- A row of `user_profiles`; `social_media_links` carries its stored JSON
text. -/
structure UserProfileRow where
  user_id : String
  profile_picture_url : Option String
  cover_image_url : Option String
  bio : Option String
  contact_email : Option String
  phone_number : Option String
  social_media_links : Option String

/-- A row of `user_settings`; `color_scheme` carries its stored JSON text. -/
structure UserSettingsRow where
  user_id : String
  color_scheme : Option String
  chosen_template : Option String
  font_selection : Option String

/-- A row of `projects`; `images` carries its stored JSON text. -/
structure ProjectRow where
  project_id : String
  user_id : String
  title : String
  description : Option String
  images : Option String
  project_url : Option String

/-- A row of `skills`. -/
structure SkillRow where
  skill_id : String
  user_id : String
  skill_name : String
  proficiency_level : Option Int

/-- A row of `experience_timeline`. -/
structure ExperienceRow where
  experience_id : String
  user_id : String
  title : String
  description : Option String
  start_date : String
  end_date : Option String

/-- A row of `testimonials`. -/
structure TestimonialRow where
  testimonial_id : String
  user_id : String
  client_name : String
  feedback : Option String

/-- A row of `blog_posts`. -/
structure BlogPostRow where
  post_id : String
  user_id : String
  title : String
  content : Option String
  created_at : String

/-- A row of `comments`. -/
structure CommentRow where
  comment_id : String
  project_id : String
  user_name : Option String
  content : String
  created_at : String

/-- A row of `visitor_messages`. -/
structure VisitorMessageRow where
  message_id : String
  user_id : String
  visitor_email : Option String
  visitor_message : String
  sent_at : String

/-- A row of `analytics`; the two map columns carry their stored JSON
texts. -/
structure AnalyticsRow where
  analytics_id : String
  user_id : String
  visit_count : Int
  popular_projects : Option String
  interaction_data : Option String

/-- The database state: one list per table. -/
structure DB where
  users : List UserRow
  user_profiles : List UserProfileRow
  user_settings : List UserSettingsRow
  projects : List ProjectRow
  skills : List SkillRow
  experience_timeline : List ExperienceRow
  testimonials : List TestimonialRow
  blog_posts : List BlogPostRow
  comments : List CommentRow
  visitor_messages : List VisitorMessageRow
  analytics : List AnalyticsRow

def emptyDB : DB :=
  ⟨[], [], [], [], [], [], [], [], [], [], []⟩

/-- Store-level failures surfaced to a handler's `catch`. -/
inductive SqlErr where
  | uniqueViolation
  | invalidJsonInput
  | undefinedOperator

/-- `INSERT INTO users ...`: the DDL declares `email TEXT UNIQUE`, so
inserting a row whose (byte-equal) email already exists raises a unique
violation.  (Fresh UUID `user_id` collisions are not modelled.) -/
def insertUser (db : DB) (row : UserRow) : Except SqlErr DB :=
  if db.users.any (fun u => u.email == row.email) then .error .uniqueViolation
  else .ok { db with users := db.users ++ [row] }

/- ## HTTP response model -/

/-- The failure envelope built by `createErrorResponse` (the `timestamp`
field is the request clock and the optional `details` echo the thrown error;
neither is load-bearing for any claim and they are omitted). -/
structure ErrEnvelope where
  message : String
  error_code : Option String

/-- Response bodies, one constructor per shape the server sends. -/
inductive Body where
  | empty
  | errorEnv (e : ErrEnvelope)
  | messageJson (message : String)
  | authJson (user_id : String) (email : String) (name : Option String)
      (created_at : String) (token_uid : String) (token_email : String)
  | projectJson (project_id user_id title : String) (description : Option String)
      (images : List String) (project_url : Option String)
  | skillJson (skill_id user_id skill_name : String) (proficiency_level : Option Int)
  | experienceJson (experience_id user_id title : String)
      (description : Option String) (start_date : String) (end_date : Option String)
  | testimonialJson (testimonial_id user_id client_name : String)
      (feedback : Option String)
  | blogPostJson (post_id user_id title : String) (content : Option String)
      (created_at : String)
  | analyticsJson (analytics_id user_id : String) (visit_count : Int)
      (popular_projects interaction_data : JsonVal)
  | uploadJson (url filename originalName : String) (size : Nat)
  | defaultErrorHtml (message : String)

/-- An HTTP response. -/
structure Resp where
  status : Nat
  body : Body

def internalError : Resp :=
  ⟨500, .errorEnv ⟨"Internal server error", some "INTERNAL_SERVER_ERROR"⟩⟩

/- ## AuthGuard -/

/-- The authenticated principal bound to `req.user`. -/
structure Principal where
  user_id : String
  email : String
  name : Option String
  created_at : String

/-- Outcome of reading and cryptographically verifying the bearer token
(`jwt.verify` internals are library code and are abstracted to their
result): no token at all, a token whose verification throws (malformed,
tampered signature, or expired), or a verified payload. -/
inductive TokenCheck where
  | missing
  | malformed
  | payload (user_id : String) (email : String)

/-- The `authenticateToken` middleware: `401 AUTH_TOKEN_MISSING` without a
token, `403 AUTH_TOKEN_INVALID` when `jwt.verify` throws, `401
AUTH_TOKEN_INVALID` when the verified subject no longer exists, otherwise
binds the user row as the principal. -/
def authenticateToken (db : DB) (tok : TokenCheck) : Except Resp Principal :=
  match tok with
  | .missing =>
    .error ⟨401, .errorEnv ⟨"Access token required", some "AUTH_TOKEN_MISSING"⟩⟩
  | .malformed =>
    .error ⟨403, .errorEnv ⟨"Invalid or expired token", some "AUTH_TOKEN_INVALID"⟩⟩
  | .payload uid _ =>
    match db.users.find? (fun u => u.user_id == uid) with
    | none => .error ⟨401, .errorEnv ⟨"Invalid token", some "AUTH_TOKEN_INVALID"⟩⟩
    | some u => .ok ⟨u.user_id, u.email, u.name, u.created_at⟩

/- ## Zod input schemas (from `schema.ts`) -/

/-- Parsed `createUserInputSchema` value. -/
structure CreateUserInput where
  email : String
  password_hash : String
  name : Tri String

def parseCreateUserInput (v : JsonVal) : Option CreateUserInput :=
  match v with
  | .obj fs => do
    let email ← reqStr fs "email"
    if isEmailLike email then
      let pw ← reqStr fs "password_hash"
      let name ← optNulStr fs "name"
      some ⟨email, pw, name⟩
    else none
  | _ => none

/-- Parsed `updateUserProfileInputSchema` value. -/
structure UpdateUserProfileInput where
  user_id : String
  profile_picture_url : Tri String
  cover_image_url : Tri String
  bio : Tri String
  contact_email : Tri String
  phone_number : Tri String
  social_media_links : Tri (List (String × String))

def parseUpdateUserProfileInput (v : JsonVal) : Option UpdateUserProfileInput :=
  match v with
  | .obj fs => do
    let uid ← reqStr fs "user_id"
    let ppu ← optNulStr fs "profile_picture_url"
    let cov ← optNulStr fs "cover_image_url"
    let bio ← optNulStr fs "bio"
    let ce ← optNulEmail fs "contact_email"
    let ph ← optNulStr fs "phone_number"
    let sml ← optNulRecord fs "social_media_links"
    some ⟨uid, ppu, cov, bio, ce, ph, sml⟩
  | _ => none

/-- Parsed `createUserSettingsInputSchema` value. -/
structure CreateUserSettingsInput where
  user_id : String
  color_scheme : Tri (List (String × String))
  chosen_template : Tri String
  font_selection : Tri String

def parseCreateUserSettingsInput (v : JsonVal) : Option CreateUserSettingsInput :=
  match v with
  | .obj fs => do
    let uid ← reqStr fs "user_id"
    let csch ← optNulRecord fs "color_scheme"
    let tmpl ← optNulStr fs "chosen_template"
    let font ← optNulStr fs "font_selection"
    some ⟨uid, csch, tmpl, font⟩
  | _ => none

/-- Parsed `createProjectInputSchema` value. -/
structure CreateProjectInput where
  user_id : String
  title : String
  description : Tri String
  images : Tri (List String)
  project_url : Tri String

def parseCreateProjectInput (v : JsonVal) : Option CreateProjectInput :=
  match v with
  | .obj fs => do
    let uid ← reqStr fs "user_id"
    let title ← reqStr fs "title"
    let desc ← optNulStr fs "description"
    let imgs ← optNulStrList fs "images"
    let url ← optNulUrl fs "project_url"
    some ⟨uid, title, desc, imgs, url⟩
  | _ => none

/-- Parsed `createSkillInputSchema` value. -/
structure CreateSkillInput where
  user_id : String
  skill_name : String
  proficiency_level : Option Int

def parseCreateSkillInput (v : JsonVal) : Option CreateSkillInput :=
  match v with
  | .obj fs => do
    let uid ← reqStr fs "user_id"
    let sn ← reqStr fs "skill_name"
    let pl ← optInt fs "proficiency_level"
    some ⟨uid, sn, pl⟩
  | _ => none

/-- Parsed `createExperienceTimelineInputSchema` value. -/
structure CreateExperienceInput where
  user_id : String
  title : String
  description : Tri String
  start_date : String
  end_date : Tri String

def parseCreateExperienceInput (v : JsonVal) : Option CreateExperienceInput :=
  match v with
  | .obj fs => do
    let uid ← reqStr fs "user_id"
    let title ← reqStr fs "title"
    let desc ← optNulStr fs "description"
    let sd ← reqDate fs "start_date"
    let ed ← optNulDate fs "end_date"
    some ⟨uid, title, desc, sd, ed⟩
  | _ => none

/-- Parsed `createTestimonialInputSchema` value. -/
structure CreateTestimonialInput where
  user_id : String
  client_name : String
  feedback : Tri String

def parseCreateTestimonialInput (v : JsonVal) : Option CreateTestimonialInput :=
  match v with
  | .obj fs => do
    let uid ← reqStr fs "user_id"
    let cn ← reqStr fs "client_name"
    let fb ← optNulStr fs "feedback"
    some ⟨uid, cn, fb⟩
  | _ => none

/-- Parsed `createBlogPostInputSchema` value. -/
structure CreateBlogPostInput where
  user_id : String
  title : String
  content : Tri String

def parseCreateBlogPostInput (v : JsonVal) : Option CreateBlogPostInput :=
  match v with
  | .obj fs => do
    let uid ← reqStr fs "user_id"
    let title ← reqStr fs "title"
    let content ← optNulStr fs "content"
    some ⟨uid, title, content⟩
  | _ => none

/-- Parsed `createVisitorMessageInputSchema` value. -/
structure CreateVisitorMessageInput where
  user_id : String
  visitor_email : Tri String
  visitor_message : String

def parseCreateVisitorMessageInput (v : JsonVal) : Option CreateVisitorMessageInput :=
  match v with
  | .obj fs => do
    let uid ← reqStr fs "user_id"
    let ve ← optNulEmail fs "visitor_email"
    let vm ← reqStr fs "visitor_message"
    some ⟨uid, ve, vm⟩
  | _ => none

/- ## PersistenceGateway helpers -/

/-- node-postgres hands `json` (OID 114) columns to the handler already
parsed: the driver runs `JSON.parse` on the stored text, so a non-NULL
column reaches the handler as a JS value, never as its text.  (Stored texts
are valid JSON — the store validates them on write.) -/
def pgJsonOut (stored : Option String) : Option JsonVal :=
  match stored with
  | none => none
  | some s => jsonParse s

/-- JS truthiness of a driver-parsed nullable column value: SQL NULL arrives
as `null` (falsy), and `false`, `0` and `""` are also falsy; objects and
arrays are truthy. -/
def jsTruthyVal : Option JsonVal → Option JsonVal
  | none => none
  | some .null => none
  | some (.bool false) => none
  | some (.num 0) => none
  | some (.str "") => none
  | some x => some x

/-- The source's `JSON.parse(x)` where `x` is a value the driver already
parsed from a `json` column.  JS coerces a non-string argument to a string
first: an object coerces to `"[object Object]"`, which is not JSON, so the
call throws a SyntaxError (`none`, routed to the handler's catch); a string
argument is parsed as JSON; numbers and booleans coerce to their own
numerals and reparse to themselves; `null` coerces to `"null"` and reparses.
(No column of this repository stores a top-level array; the comma-joined
string coercion of the arrays that could appear is not valid JSON, modelled
as throwing.) -/
def jsJsonParseOfVal : JsonVal → Option JsonVal
  | .str s => jsonParse s
  | .num n => some (.num n)
  | .bool b => some (.bool b)
  | .null => some .null
  | .arr _ => none
  | .obj _ => none

/-- Write one parsed field of a dynamic update: absent fields leave the
stored value, `null` and values overwrite (`undefined` reaching `pg` is also
SQL NULL). -/
def triWrite {α} (old : Option α) : Tri α → Option α
  | .absent => old
  | .null => none
  | .val a => some a

/-- `JSON.parse(imagesText).images || []` with `[]` for a falsy column. -/
def imagesField (v : JsonVal) : List String :=
  match v with
  | .obj fs =>
    match fs.lookup "images" with
    | some (.arr xs) => xs.filterMap asStr
    | _ => []
  | _ => []

/-- The response-side images decoding of a `projects.images` column:
a falsy driver value yields `[]`; a non-NULL column arrives as a
driver-parsed object, so the handler's own `JSON.parse` on it throws —
`none`, caught by the handler as 500. -/
def imagesOutOf (stored : Option String) : Option (List String) :=
  match jsTruthyVal (pgJsonOut stored) with
  | none => some []
  | some x =>
    match jsJsonParseOfVal x with
    | none => none
    | some v => some (imagesField v)

/- ## Handlers (one per Express route, source order) -/

/-- `POST /api/auth/register`.  The duplicate check queries the raw validated
email; the insert stores `email.toLowerCase().trim()`.  A store failure
(unique violation) falls into the generic catch. -/
def registerHandler (db : DB) (body : JsonVal) (new_id now : String) : Resp × DB :=
  match parseCreateUserInput body with
  | none => (internalError, db)
  | some d =>
    if db.users.any (fun u => u.email == d.email) then
      (⟨400, .errorEnv ⟨"User with this email already exists", some "USER_ALREADY_EXISTS"⟩⟩, db)
    else
      let storedEmail := jsLowerTrim d.email
      let storedName : Option String :=
        match d.name with
        | .val s => if s = "" then none else some s
        | _ => none
      match insertUser db ⟨new_id, storedEmail, d.password_hash, storedName, now⟩ with
      | .error _ => (internalError, db)
      | .ok db1 =>
        let db2 := { db1 with user_profiles :=
          db1.user_profiles ++ [⟨new_id, none, none, none, none, none, none⟩] }
        (⟨200, .authJson new_id storedEmail storedName now new_id storedEmail⟩, db2)

/-- `POST /api/auth/password-reset` (the request's `email` is `none` when the
key is missing; the empty string is also falsy in the `if (!email)` guard). -/
def passwordResetHandler (db : DB) (email : Option String) : Resp × DB :=
  match email with
  | none =>
    (⟨400, .errorEnv ⟨"Email is required", some "MISSING_REQUIRED_FIELDS"⟩⟩, db)
  | some e =>
    if e = "" then
      (⟨400, .errorEnv ⟨"Email is required", some "MISSING_REQUIRED_FIELDS"⟩⟩, db)
    else
      match db.users.find? (fun u => u.email == jsLowerTrim e) with
      | none =>
        (⟨200, .messageJson "If an account with that email exists, a password reset link has been sent."⟩, db)
      | some _ =>
        (⟨200, .messageJson "If an account with that email exists, a password reset link has been sent."⟩, db)

/-- The fields the dynamic update builder of `PATCH /api/users/:user_id`
collects (`Object.entries` skipping `user_id` and `undefined`): empty exactly
when no schema field was present in the payload. -/
def profileHasUpdateField (d : UpdateUserProfileInput) : Bool :=
  d.profile_picture_url.isPresent || d.cover_image_url.isPresent ||
    d.bio.isPresent || d.contact_email.isPresent || d.phone_number.isPresent ||
    d.social_media_links.isPresent

/-- Apply the dynamic update's assignment list to a profile row (the
`social_media_links` JS object is serialized by the driver into the JSON
column). -/
def applyProfileUpdate (p : UserProfileRow) (d : UpdateUserProfileInput) :
    UserProfileRow :=
  { p with
    profile_picture_url := triWrite p.profile_picture_url d.profile_picture_url
    cover_image_url := triWrite p.cover_image_url d.cover_image_url
    bio := triWrite p.bio d.bio
    contact_email := triWrite p.contact_email d.contact_email
    phone_number := triWrite p.phone_number d.phone_number
    social_media_links :=
      match d.social_media_links with
      | .absent => p.social_media_links
      | .null => none
      | .val m => some (stringifyRecord m) }

/-- `PATCH /api/users/:user_id`. -/
def patchUserProfileHandler (db : DB) (pr : Principal) (user_id : String)
    (body : JsonVal) : Resp × DB :=
  if pr.user_id ≠ user_id then
    (⟨403, .errorEnv ⟨"Cannot update another user\x27s profile", some "FORBIDDEN"⟩⟩, db)
  else
    match parseUpdateUserProfileInput (withUserId user_id body) with
    | none => (internalError, db)
    | some d =>
      if profileHasUpdateField d = false then
        (⟨400, .errorEnv ⟨"No fields to update", some "NO_UPDATE_FIELDS"⟩⟩, db)
      else
        match db.user_profiles.find? (fun p => p.user_id == user_id) with
        | none =>
          (⟨404, .errorEnv ⟨"User profile not found", some "PROFILE_NOT_FOUND"⟩⟩, db)
        | some _ =>
          let rows := db.user_profiles.map
            (fun q => if q.user_id == user_id then applyProfileUpdate q d else q)
          (⟨200, .messageJson "Profile updated successfully"⟩,
           { db with user_profiles := rows })

/-- The `ON CONFLICT (user_id) DO UPDATE` upsert on `user_settings`. -/
def upsertSettings (db : DB) (row : UserSettingsRow) : DB :=
  if db.user_settings.any (fun s => s.user_id == row.user_id) then
    let rows := db.user_settings.map
      (fun s => if s.user_id == row.user_id then row else s)
    { db with user_settings := rows }
  else { db with user_settings := db.user_settings ++ [row] }

/-- `PATCH /api/users/:user_id/settings` (the `chosen_template` foreign key to
the immutable template catalog is not modelled). -/
def patchUserSettingsHandler (db : DB) (pr : Principal) (user_id : String)
    (body : JsonVal) : Resp × DB :=
  if pr.user_id ≠ user_id then
    (⟨403, .errorEnv ⟨"Cannot update another user\x27s settings", some "FORBIDDEN"⟩⟩, db)
  else
    match parseCreateUserSettingsInput (withUserId user_id body) with
    | none => (internalError, db)
    | some d =>
      let row : UserSettingsRow :=
        ⟨d.user_id,
         (match d.color_scheme with
          | .val m => some (stringifyRecord m)
          | _ => none),
         triToOpt d.chosen_template, triToOpt d.font_selection⟩
      (⟨200, .messageJson "Settings updated successfully"⟩, upsertSettings db row)

/-- `POST /api/users/:user_id/projects`. -/
def createProjectHandler (db : DB) (pr : Principal) (user_id : String)
    (body : JsonVal) (new_id : String) : Resp × DB :=
  if pr.user_id ≠ user_id then
    (⟨403, .errorEnv ⟨"Cannot create project for another user", some "FORBIDDEN"⟩⟩, db)
  else
    match parseCreateProjectInput (withUserId user_id body) with
    | none => (internalError, db)
    | some d =>
      let imagesJson : Option String :=
        match d.images with
        | .val xs => some (stringifyImages xs)
        | _ => none
      let row : ProjectRow :=
        ⟨new_id, d.user_id, d.title, triToOpt d.description, imagesJson,
         triToOpt d.project_url⟩
      let db1 := { db with projects := db.projects ++ [row] }
      match imagesOutOf imagesJson with
      | some imgs =>
        (⟨201, .projectJson row.project_id row.user_id row.title row.description
            imgs row.project_url⟩, db1)
      | none => (internalError, db1)

/-- `PATCH /api/projects/:project_id`.  Note the source validates `req.body`
with the full `createProjectInputSchema` (no path merge) and then overwrites
all four columns. -/
def patchProjectHandler (db : DB) (pr : Principal) (project_id : String)
    (body : JsonVal) : Resp × DB :=
  match db.projects.find? (fun p => p.project_id == project_id) with
  | none => (⟨404, .errorEnv ⟨"Project not found", some "PROJECT_NOT_FOUND"⟩⟩, db)
  | some row =>
    if row.user_id ≠ pr.user_id then
      (⟨403, .errorEnv ⟨"Cannot update another user\x27s project", some "FORBIDDEN"⟩⟩, db)
    else
      match parseCreateProjectInput body with
      | none => (internalError, db)
      | some d =>
        let imagesJson : Option String :=
          match d.images with
          | .val xs => some (stringifyImages xs)
          | _ => none
        let rows := db.projects.map
          (fun p => if p.project_id == project_id then
              { p with title := d.title, description := triToOpt d.description,
                       images := imagesJson, project_url := triToOpt d.project_url }
            else p)
        let db1 := { db with projects := rows }
        match imagesOutOf imagesJson with
        | some imgs =>
          (⟨200, .projectJson row.project_id row.user_id d.title
              (triToOpt d.description) imgs (triToOpt d.project_url)⟩, db1)
        | none => (internalError, db1)

/-- `DELETE /api/projects/:project_id`: dependent comments are deleted first,
then the project row. -/
def deleteProjectHandler (db : DB) (pr : Principal) (project_id : String) :
    Resp × DB :=
  match db.projects.find? (fun p => p.project_id == project_id) with
  | none => (⟨404, .errorEnv ⟨"Project not found", some "PROJECT_NOT_FOUND"⟩⟩, db)
  | some row =>
    if row.user_id ≠ pr.user_id then
      (⟨403, .errorEnv ⟨"Cannot delete another user\x27s project", some "FORBIDDEN"⟩⟩, db)
    else
      let remainingComments := db.comments.filter (fun c => !(c.project_id == project_id))
      let db1 := { db with comments := remainingComments }
      let remainingProjects := db1.projects.filter (fun p => !(p.project_id == project_id))
      let db2 := { db1 with projects := remainingProjects }
      (⟨204, .empty⟩, db2)

/-- `POST /api/users/:user_id/skills`. -/
def createSkillHandler (db : DB) (pr : Principal) (user_id : String)
    (body : JsonVal) (new_id : String) : Resp × DB :=
  if pr.user_id ≠ user_id then
    (⟨403, .errorEnv ⟨"Cannot create skill for another user", some "FORBIDDEN"⟩⟩, db)
  else
    match parseCreateSkillInput (withUserId user_id body) with
    | none => (internalError, db)
    | some d =>
      let row : SkillRow := ⟨new_id, d.user_id, d.skill_name, d.proficiency_level⟩
      (⟨201, .skillJson row.skill_id row.user_id row.skill_name row.proficiency_level⟩,
       { db with skills := db.skills ++ [row] })

/-- `PATCH /api/skills/:skill_id` (validates `req.body` with the create
schema, so `user_id` and `skill_name` are required in the body). -/
def patchSkillHandler (db : DB) (pr : Principal) (skill_id : String)
    (body : JsonVal) : Resp × DB :=
  match db.skills.find? (fun s => s.skill_id == skill_id) with
  | none => (⟨404, .errorEnv ⟨"Skill not found", some "SKILL_NOT_FOUND"⟩⟩, db)
  | some row =>
    if row.user_id ≠ pr.user_id then
      (⟨403, .errorEnv ⟨"Cannot update another user\x27s skill", some "FORBIDDEN"⟩⟩, db)
    else
      match parseCreateSkillInput body with
      | none => (internalError, db)
      | some d =>
        let rows := db.skills.map
          (fun s => if s.skill_id == skill_id then
              { s with skill_name := d.skill_name,
                       proficiency_level := d.proficiency_level }
            else s)
        (⟨200, .skillJson row.skill_id row.user_id d.skill_name d.proficiency_level⟩,
         { db with skills := rows })

/-- `DELETE /api/skills/:skill_id`. -/
def deleteSkillHandler (db : DB) (pr : Principal) (skill_id : String) : Resp × DB :=
  match db.skills.find? (fun s => s.skill_id == skill_id) with
  | none => (⟨404, .errorEnv ⟨"Skill not found", some "SKILL_NOT_FOUND"⟩⟩, db)
  | some row =>
    if row.user_id ≠ pr.user_id then
      (⟨403, .errorEnv ⟨"Cannot delete another user\x27s skill", some "FORBIDDEN"⟩⟩, db)
    else
      let rows := db.skills.filter (fun s => !(s.skill_id == skill_id))
      (⟨204, .empty⟩, { db with skills := rows })

/-- `POST /api/users/:user_id/experience` (`start_date.toISOString()` is the
date string carried by the parse; see `isDateLike`). -/
def createExperienceHandler (db : DB) (pr : Principal) (user_id : String)
    (body : JsonVal) (new_id : String) : Resp × DB :=
  if pr.user_id ≠ user_id then
    (⟨403, .errorEnv ⟨"Cannot create experience for another user", some "FORBIDDEN"⟩⟩, db)
  else
    match parseCreateExperienceInput (withUserId user_id body) with
    | none => (internalError, db)
    | some d =>
      let row : ExperienceRow :=
        ⟨new_id, d.user_id, d.title, triToOpt d.description, d.start_date,
         triToOpt d.end_date⟩
      (⟨201, .experienceJson row.experience_id row.user_id row.title
          row.description row.start_date row.end_date⟩,
       { db with experience_timeline := db.experience_timeline ++ [row] })

/-- `PATCH /api/experience/:experience_id`. -/
def patchExperienceHandler (db : DB) (pr : Principal) (experience_id : String)
    (body : JsonVal) : Resp × DB :=
  match db.experience_timeline.find? (fun e => e.experience_id == experience_id) with
  | none => (⟨404, .errorEnv ⟨"Experience not found", some "EXPERIENCE_NOT_FOUND"⟩⟩, db)
  | some row =>
    if row.user_id ≠ pr.user_id then
      (⟨403, .errorEnv ⟨"Cannot update another user\x27s experience", some "FORBIDDEN"⟩⟩, db)
    else
      match parseCreateExperienceInput body with
      | none => (internalError, db)
      | some d =>
        let rows := db.experience_timeline.map
          (fun e => if e.experience_id == experience_id then
              { e with title := d.title, description := triToOpt d.description,
                       start_date := d.start_date, end_date := triToOpt d.end_date }
            else e)
        (⟨200, .experienceJson row.experience_id row.user_id d.title
            (triToOpt d.description) d.start_date (triToOpt d.end_date)⟩,
         { db with experience_timeline := rows })

/-- `DELETE /api/experience/:experience_id`. -/
def deleteExperienceHandler (db : DB) (pr : Principal) (experience_id : String) :
    Resp × DB :=
  match db.experience_timeline.find? (fun e => e.experience_id == experience_id) with
  | none => (⟨404, .errorEnv ⟨"Experience not found", some "EXPERIENCE_NOT_FOUND"⟩⟩, db)
  | some row =>
    if row.user_id ≠ pr.user_id then
      (⟨403, .errorEnv ⟨"Cannot delete another user\x27s experience", some "FORBIDDEN"⟩⟩, db)
    else
      let rows := db.experience_timeline.filter
        (fun e => !(e.experience_id == experience_id))
      (⟨204, .empty⟩, { db with experience_timeline := rows })

/-- `POST /api/users/:user_id/testimonials`. -/
def createTestimonialHandler (db : DB) (pr : Principal) (user_id : String)
    (body : JsonVal) (new_id : String) : Resp × DB :=
  if pr.user_id ≠ user_id then
    (⟨403, .errorEnv ⟨"Cannot create testimonial for another user", some "FORBIDDEN"⟩⟩, db)
  else
    match parseCreateTestimonialInput (withUserId user_id body) with
    | none => (internalError, db)
    | some d =>
      let row : TestimonialRow := ⟨new_id, d.user_id, d.client_name, triToOpt d.feedback⟩
      (⟨201, .testimonialJson row.testimonial_id row.user_id row.client_name row.feedback⟩,
       { db with testimonials := db.testimonials ++ [row] })

/-- `PATCH /api/testimonials/:testimonial_id`. -/
def patchTestimonialHandler (db : DB) (pr : Principal) (testimonial_id : String)
    (body : JsonVal) : Resp × DB :=
  match db.testimonials.find? (fun t => t.testimonial_id == testimonial_id) with
  | none => (⟨404, .errorEnv ⟨"Testimonial not found", some "TESTIMONIAL_NOT_FOUND"⟩⟩, db)
  | some row =>
    if row.user_id ≠ pr.user_id then
      (⟨403, .errorEnv ⟨"Cannot update another user\x27s testimonial", some "FORBIDDEN"⟩⟩, db)
    else
      match parseCreateTestimonialInput body with
      | none => (internalError, db)
      | some d =>
        let rows := db.testimonials.map
          (fun t => if t.testimonial_id == testimonial_id then
              { t with client_name := d.client_name, feedback := triToOpt d.feedback }
            else t)
        (⟨200, .testimonialJson row.testimonial_id row.user_id d.client_name
            (triToOpt d.feedback)⟩,
         { db with testimonials := rows })

/-- `DELETE /api/testimonials/:testimonial_id`. -/
def deleteTestimonialHandler (db : DB) (pr : Principal) (testimonial_id : String) :
    Resp × DB :=
  match db.testimonials.find? (fun t => t.testimonial_id == testimonial_id) with
  | none => (⟨404, .errorEnv ⟨"Testimonial not found", some "TESTIMONIAL_NOT_FOUND"⟩⟩, db)
  | some row =>
    if row.user_id ≠ pr.user_id then
      (⟨403, .errorEnv ⟨"Cannot delete another user\x27s testimonial", some "FORBIDDEN"⟩⟩, db)
    else
      let rows := db.testimonials.filter (fun t => !(t.testimonial_id == testimonial_id))
      (⟨204, .empty⟩, { db with testimonials := rows })

/-- `POST /api/users/:user_id/blog-posts`. -/
def createBlogPostHandler (db : DB) (pr : Principal) (user_id : String)
    (body : JsonVal) (new_id now : String) : Resp × DB :=
  if pr.user_id ≠ user_id then
    (⟨403, .errorEnv ⟨"Cannot create blog post for another user", some "FORBIDDEN"⟩⟩, db)
  else
    match parseCreateBlogPostInput (withUserId user_id body) with
    | none => (internalError, db)
    | some d =>
      let row : BlogPostRow := ⟨new_id, d.user_id, d.title, triToOpt d.content, now⟩
      (⟨201, .blogPostJson row.post_id row.user_id row.title row.content row.created_at⟩,
       { db with blog_posts := db.blog_posts ++ [row] })

/-- `PATCH /api/blog-posts/:post_id`. -/
def patchBlogPostHandler (db : DB) (pr : Principal) (post_id : String)
    (body : JsonVal) : Resp × DB :=
  match db.blog_posts.find? (fun b => b.post_id == post_id) with
  | none => (⟨404, .errorEnv ⟨"Blog post not found", some "POST_NOT_FOUND"⟩⟩, db)
  | some row =>
    if row.user_id ≠ pr.user_id then
      (⟨403, .errorEnv ⟨"Cannot update another user\x27s blog post", some "FORBIDDEN"⟩⟩, db)
    else
      match parseCreateBlogPostInput body with
      | none => (internalError, db)
      | some d =>
        let rows := db.blog_posts.map
          (fun b => if b.post_id == post_id then
              { b with title := d.title, content := triToOpt d.content }
            else b)
        (⟨200, .blogPostJson row.post_id row.user_id d.title (triToOpt d.content)
            row.created_at⟩,
         { db with blog_posts := rows })

/-- `DELETE /api/blog-posts/:post_id`. -/
def deleteBlogPostHandler (db : DB) (pr : Principal) (post_id : String) : Resp × DB :=
  match db.blog_posts.find? (fun b => b.post_id == post_id) with
  | none => (⟨404, .errorEnv ⟨"Blog post not found", some "POST_NOT_FOUND"⟩⟩, db)
  | some row =>
    if row.user_id ≠ pr.user_id then
      (⟨403, .errorEnv ⟨"Cannot delete another user\x27s blog post", some "FORBIDDEN"⟩⟩, db)
    else
      let rows := db.blog_posts.filter (fun b => !(b.post_id == post_id))
      (⟨204, .empty⟩, { db with blog_posts := rows })

/-- The initial `popular_projects` text written on analytics lazy creation:
`JSON.stringify({ popular: [] })`. -/
def popularInitText : String := "\x7b\"popular\":[]\x7d"

/-- The initial `interaction_data` text written on analytics lazy creation:
`JSON.stringify({ views: 0, comments: 0, contacts: 0 })`. -/
def interactionInitText : String := "\x7b\"views\":0,\"comments\":0,\"contacts\":0\x7d"

/-- Decode an analytics row into its response body as the handler does:
falsy driver values fall back to the empty structures, and a truthy (i.e.
non-NULL, driver-parsed) column value is fed to the handler's own
`JSON.parse`, which throws on the objects these columns store — `none`,
caught as 500. -/
def analyticsBodyOf (row : AnalyticsRow) : Option Body :=
  let pp : Option JsonVal :=
    match jsTruthyVal (pgJsonOut row.popular_projects) with
    | none => some (.obj [("popular", .arr [])])
    | some x => jsJsonParseOfVal x
  let idata : Option JsonVal :=
    match jsTruthyVal (pgJsonOut row.interaction_data) with
    | none => some (.obj [("views", .num 0), ("comments", .num 0), ("contacts", .num 0)])
    | some x => jsJsonParseOfVal x
  match pp, idata with
  | some p, some i =>
    some (.analyticsJson row.analytics_id row.user_id row.visit_count p i)
  | _, _ => none

/-- `GET /api/analytics/:user_id`: ownership check, then get-or-create with a
re-read after the initializing insert. -/
def getAnalyticsHandler (db : DB) (pr : Principal) (user_id new_id : String) :
    Resp × DB :=
  if pr.user_id ≠ user_id then
    (⟨403, .errorEnv ⟨"Cannot view another user\x27s analytics", some "FORBIDDEN"⟩⟩, db)
  else
    match db.analytics.find? (fun a => a.user_id == user_id) with
    | some row =>
      match analyticsBodyOf row with
      | some b => (⟨200, b⟩, db)
      | none => (internalError, db)
    | none =>
      let row : AnalyticsRow :=
        ⟨new_id, user_id, 0, some popularInitText, some interactionInitText⟩
      let db1 := { db with analytics := db.analytics ++ [row] }
      match db1.analytics.find? (fun a => a.user_id == user_id) with
      | some row2 =>
        match analyticsBodyOf row2 with
        | some b => (⟨200, b⟩, db1)
        | none => (internalError, db1)
      | none => (internalError, db1)

/- ## UploadHandler -/

/-- An incoming multipart file as multer sees it. -/
structure UploadFile where
  originalname : String
  mimetype : String
  size : Nat

/-- A file written to disk by multer's disk storage. -/
structure StoredFile where
  dir : String
  filename : String
  size : Nat

/-- Index of the last occurrence of `c`. -/
def lastIdxOf (c : Char) : List Char → Option Nat
  | [] => none
  | a :: as =>
    match lastIdxOf c as with
    | some i => some (i + 1)
    | none => if a = c then some 0 else none

/-- Node's `path.extname` on a plain filename: the suffix from the last dot,
empty when there is no dot or the only dot leads the name. -/
def extname (s : String) : String :=
  match lastIdxOf '.' s.toList with
  | none => ""
  | some 0 => ""
  | some i => String.mk (s.toList.drop i)

/-- The unanchored regex `/jpeg|jpg|png|gif|webp/` as a substring test. -/
def allowedTypesTest (s : String) : Bool :=
  containsSub s "jpeg" || containsSub s "jpg" || containsSub s "png" ||
    containsSub s "gif" || containsSub s "webp"

/-- multer's `fileFilter`: the declared content-type AND the lowercased
extension must both match the image pattern. -/
def fileFilterAccepts (f : UploadFile) : Bool :=
  allowedTypesTest f.mimetype &&
    allowedTypesTest (jsToLowerCase (extname f.originalname))

/-- The generated storage filename `Date.now() + '-' + random + ext` —
never the client-supplied name, always preserving its extension. -/
def genFilename (nowMs rand : Nat) (originalname : String) : String :=
  toString nowMs ++ "-" ++ toString rand ++ extname originalname

/-- The category-namespaced destination directory (created at process
start). -/
def destDirFor (t : String) : String :=
  if t = "profile" then "storage/uploads/profiles"
  else if t = "project" then "storage/uploads/projects"
  else "storage/uploads"

/-- `POST /api/upload/:type`: the multer middleware (fileFilter, 5 MiB size
limit, disk storage) followed by the handler.  The app registers no Express
error-handling middleware, so a multer error (filter rejection or
`LIMIT_FILE_SIZE`) reaches Express's default final handler, which responds
with the error's own status or `500` — these errors carry none, hence `500`.
A rejected file is never written (the filter runs before storage; a
truncated oversized file is unlinked by multer's cleanup). -/
def uploadRoute (file : Option UploadFile) (uploadType : String)
    (nowMs rand : Nat) : Resp × Option StoredFile :=
  match file with
  | none => (⟨400, .errorEnv ⟨"No file uploaded", some "NO_FILE_UPLOADED"⟩⟩, none)
  | some f =>
    if fileFilterAccepts f = false then
      (⟨500, .defaultErrorHtml "Only image files are allowed"⟩, none)
    else if 5 * 1024 * 1024 < f.size then
      (⟨500, .defaultErrorHtml "File too large"⟩, none)
    else
      let name := genFilename nowMs rand f.originalname
      (⟨200, .uploadJson ("/uploads/" ++ uploadType ++ "/" ++ name) name
          f.originalname f.size⟩,
       some ⟨destDirFor uploadType, name, f.size⟩)

/- ## Contact endpoint -/

/-- The opening object fragment `'\x7b"contacts": '` concatenated into the
analytics `UPDATE`'s SET expression. -/
def contactsLitOpen : String := "\x7b\"contacts\": "

/-- The statement
`UPDATE analytics SET interaction_data = COALESCE(interaction_data::jsonb,
'\x7b\x7d'::jsonb) || '\x7b"contacts": ' || (COALESCE(...) + 1) || '\x7d'
WHERE user_id = $1`.

`||` is left-associative, so the first operator application is
`jsonb || '\x7b"contacts": '`.  With a `jsonb` left operand and an
unknown-type literal on the right, Postgres resolves to the
`jsonb || jsonb` concatenation operator and coerces the literal to `jsonb`
while analyzing the statement; `jsonTextOk` models that input check, and the
literal is an unterminated object, so the statement raises `invalid input
syntax for type json` before matching any row.  (Were the literal valid
jsonb, the next application `jsonb || integer` has no operator and the
statement would still fail to analyze.)  Either way the store raises and no
row is ever updated. -/
def contactsIncrementUpdate (_db : DB) (_uid : String) : Except SqlErr DB :=
  if jsonTextOk contactsLitOpen then .error .undefinedOperator
  else .error .invalidJsonInput

/-- `POST /api/contact/:user_id`: user existence check, visitor-message
insert, then the analytics contacts-increment `UPDATE` (no transaction: the
insert persists even when the update raises into the catch). -/
def contactHandler (db : DB) (user_id : String) (body : JsonVal)
    (new_id now : String) : Resp × DB :=
  match db.users.find? (fun u => u.user_id == user_id) with
  | none => (⟨404, .errorEnv ⟨"User not found", some "USER_NOT_FOUND"⟩⟩, db)
  | some _ =>
    match parseCreateVisitorMessageInput (withUserId user_id body) with
    | none => (internalError, db)
    | some d =>
      let msg : VisitorMessageRow :=
        ⟨new_id, d.user_id, triToOpt d.visitor_email, d.visitor_message, now⟩
      let db1 := { db with visitor_messages := db.visitor_messages ++ [msg] }
      match contactsIncrementUpdate db1 user_id with
      | .error _ => (internalError, db1)
      | .ok db2 => (⟨200, .messageJson "Message sent successfully"⟩, db2)

/- ## The owner-guarded route table (for the ownership claims) -/

/-- The owner-guarded mutate/read operations: every endpoint whose handler
compares the principal against an owner id (profile and settings updates,
create/update/delete for the five per-user entities, and the analytics
read). -/
inductive OwnedOp where
  | updateProfile (user_id : String) (body : JsonVal)
  | updateSettings (user_id : String) (body : JsonVal)
  | createProject (user_id : String) (body : JsonVal) (new_id : String)
  | updateProject (project_id : String) (body : JsonVal)
  | deleteProject (project_id : String)
  | createSkill (user_id : String) (body : JsonVal) (new_id : String)
  | updateSkill (skill_id : String) (body : JsonVal)
  | deleteSkill (skill_id : String)
  | createExperience (user_id : String) (body : JsonVal) (new_id : String)
  | updateExperience (experience_id : String) (body : JsonVal)
  | deleteExperience (experience_id : String)
  | createTestimonial (user_id : String) (body : JsonVal) (new_id : String)
  | updateTestimonial (testimonial_id : String) (body : JsonVal)
  | deleteTestimonial (testimonial_id : String)
  | createBlogPost (user_id : String) (body : JsonVal) (new_id now : String)
  | updateBlogPost (post_id : String) (body : JsonVal)
  | deleteBlogPost (post_id : String)
  | readAnalytics (user_id : String) (new_id : String)

/-- Dispatch an owner-guarded operation to its handler (the Express route
table restricted to these endpoints). -/
def runOwnedOp (op : OwnedOp) (db : DB) (pr : Principal) : Resp × DB :=
  match op with
  | .updateProfile uid body => patchUserProfileHandler db pr uid body
  | .updateSettings uid body => patchUserSettingsHandler db pr uid body
  | .createProject uid body nid => createProjectHandler db pr uid body nid
  | .updateProject pid body => patchProjectHandler db pr pid body
  | .deleteProject pid => deleteProjectHandler db pr pid
  | .createSkill uid body nid => createSkillHandler db pr uid body nid
  | .updateSkill sid body => patchSkillHandler db pr sid body
  | .deleteSkill sid => deleteSkillHandler db pr sid
  | .createExperience uid body nid => createExperienceHandler db pr uid body nid
  | .updateExperience eid body => patchExperienceHandler db pr eid body
  | .deleteExperience eid => deleteExperienceHandler db pr eid
  | .createTestimonial uid body nid => createTestimonialHandler db pr uid body nid
  | .updateTestimonial tid body => patchTestimonialHandler db pr tid body
  | .deleteTestimonial tid => deleteTestimonialHandler db pr tid
  | .createBlogPost uid body nid now => createBlogPostHandler db pr uid body nid now
  | .updateBlogPost bid body => patchBlogPostHandler db pr bid body
  | .deleteBlogPost bid => deleteBlogPostHandler db pr bid
  | .readAnalytics uid nid => getAnalyticsHandler db pr uid nid

/-- The target resource's owner id, as each handler resolves it: the path
`user_id` for creation/profile/settings/analytics endpoints, and the owner
column of the looked-up row for mutations of an existing resource (`none`
when that lookup finds nothing). -/
def ownerOf (op : OwnedOp) (db : DB) : Option String :=
  match op with
  | .updateProfile uid _ => some uid
  | .updateSettings uid _ => some uid
  | .createProject uid _ _ => some uid
  | .updateProject pid _ =>
    (db.projects.find? (fun p => p.project_id == pid)).map (fun p => p.user_id)
  | .deleteProject pid =>
    (db.projects.find? (fun p => p.project_id == pid)).map (fun p => p.user_id)
  | .createSkill uid _ _ => some uid
  | .updateSkill sid _ =>
    (db.skills.find? (fun s => s.skill_id == sid)).map (fun s => s.user_id)
  | .deleteSkill sid =>
    (db.skills.find? (fun s => s.skill_id == sid)).map (fun s => s.user_id)
  | .createExperience uid _ _ => some uid
  | .updateExperience eid _ =>
    (db.experience_timeline.find? (fun e => e.experience_id == eid)).map
      (fun e => e.user_id)
  | .deleteExperience eid =>
    (db.experience_timeline.find? (fun e => e.experience_id == eid)).map
      (fun e => e.user_id)
  | .createTestimonial uid _ _ => some uid
  | .updateTestimonial tid _ =>
    (db.testimonials.find? (fun t => t.testimonial_id == tid)).map
      (fun t => t.user_id)
  | .deleteTestimonial tid =>
    (db.testimonials.find? (fun t => t.testimonial_id == tid)).map
      (fun t => t.user_id)
  | .createBlogPost uid _ _ _ => some uid
  | .updateBlogPost bid _ =>
    (db.blog_posts.find? (fun b => b.post_id == bid)).map (fun b => b.user_id)
  | .deleteBlogPost bid =>
    (db.blog_posts.find? (fun b => b.post_id == bid)).map (fun b => b.user_id)
  | .readAnalytics uid _ => some uid

/-- The per-endpoint `403` envelope. -/
def forbiddenEnvOf (op : OwnedOp) : ErrEnvelope :=
  match op with
  | .updateProfile _ _ => ⟨"Cannot update another user\x27s profile", some "FORBIDDEN"⟩
  | .updateSettings _ _ => ⟨"Cannot update another user\x27s settings", some "FORBIDDEN"⟩
  | .createProject _ _ _ => ⟨"Cannot create project for another user", some "FORBIDDEN"⟩
  | .updateProject _ _ => ⟨"Cannot update another user\x27s project", some "FORBIDDEN"⟩
  | .deleteProject _ => ⟨"Cannot delete another user\x27s project", some "FORBIDDEN"⟩
  | .createSkill _ _ _ => ⟨"Cannot create skill for another user", some "FORBIDDEN"⟩
  | .updateSkill _ _ => ⟨"Cannot update another user\x27s skill", some "FORBIDDEN"⟩
  | .deleteSkill _ => ⟨"Cannot delete another user\x27s skill", some "FORBIDDEN"⟩
  | .createExperience _ _ _ =>
    ⟨"Cannot create experience for another user", some "FORBIDDEN"⟩
  | .updateExperience _ _ =>
    ⟨"Cannot update another user\x27s experience", some "FORBIDDEN"⟩
  | .deleteExperience _ =>
    ⟨"Cannot delete another user\x27s experience", some "FORBIDDEN"⟩
  | .createTestimonial _ _ _ =>
    ⟨"Cannot create testimonial for another user", some "FORBIDDEN"⟩
  | .updateTestimonial _ _ =>
    ⟨"Cannot update another user\x27s testimonial", some "FORBIDDEN"⟩
  | .deleteTestimonial _ =>
    ⟨"Cannot delete another user\x27s testimonial", some "FORBIDDEN"⟩
  | .createBlogPost _ _ _ _ =>
    ⟨"Cannot create blog post for another user", some "FORBIDDEN"⟩
  | .updateBlogPost _ _ =>
    ⟨"Cannot update another user\x27s blog post", some "FORBIDDEN"⟩
  | .deleteBlogPost _ =>
    ⟨"Cannot delete another user\x27s blog post", some "FORBIDDEN"⟩
  | .readAnalytics _ _ =>
    ⟨"Cannot view another user\x27s analytics", some "FORBIDDEN"⟩

/-- Whether the operation mutates an existing looked-up resource (the ten
update/delete endpoints over projects, skills, experience, testimonials and
blog posts). -/
def isExistingResourceMutation (op : OwnedOp) : Bool :=
  match op with
  | .updateProject _ _ => true
  | .deleteProject _ => true
  | .updateSkill _ _ => true
  | .deleteSkill _ => true
  | .updateExperience _ _ => true
  | .deleteExperience _ => true
  | .updateTestimonial _ _ => true
  | .deleteTestimonial _ => true
  | .updateBlogPost _ _ => true
  | .deleteBlogPost _ => true
  | _ => false

/-- The per-endpoint `404` envelope for mutations of an existing resource
(unused constructors map to their handler's only 404 envelope or, for pure
creation endpoints, to the project one; those cases are unreachable under
`isExistingResourceMutation`). -/
def notFoundEnvOf (op : OwnedOp) : ErrEnvelope :=
  match op with
  | .updateProject _ _ => ⟨"Project not found", some "PROJECT_NOT_FOUND"⟩
  | .deleteProject _ => ⟨"Project not found", some "PROJECT_NOT_FOUND"⟩
  | .updateSkill _ _ => ⟨"Skill not found", some "SKILL_NOT_FOUND"⟩
  | .deleteSkill _ => ⟨"Skill not found", some "SKILL_NOT_FOUND"⟩
  | .updateExperience _ _ => ⟨"Experience not found", some "EXPERIENCE_NOT_FOUND"⟩
  | .deleteExperience _ => ⟨"Experience not found", some "EXPERIENCE_NOT_FOUND"⟩
  | .updateTestimonial _ _ => ⟨"Testimonial not found", some "TESTIMONIAL_NOT_FOUND"⟩
  | .deleteTestimonial _ => ⟨"Testimonial not found", some "TESTIMONIAL_NOT_FOUND"⟩
  | .updateBlogPost _ _ => ⟨"Blog post not found", some "POST_NOT_FOUND"⟩
  | .deleteBlogPost _ => ⟨"Blog post not found", some "POST_NOT_FOUND"⟩
  | .updateProfile _ _ => ⟨"User profile not found", some "PROFILE_NOT_FOUND"⟩
  | _ => ⟨"Project not found", some "PROJECT_NOT_FOUND"⟩

/- ## Concrete fixtures (used by witnesses and evaluation theorems) -/

def user1Row : UserRow := ⟨"user1", "a@x.com", "p1", some "A", "2023-10-05"⟩

def user2Row : UserRow := ⟨"user2", "b@x.com", "p2", some "B", "2023-10-05"⟩

def principal1 : Principal := ⟨"user1", "a@x.com", some "A", "2023-10-05"⟩

def principal2 : Principal := ⟨"user2", "b@x.com", some "B", "2023-10-05"⟩

def project1Row : ProjectRow :=
  ⟨"project1", "user1", "Amazing Project", some "desc",
   some (stringifyImages ["https://img.example/1"]), some "https://example.com/p"⟩

def skill1Row : SkillRow := ⟨"skill1", "user1", "Python", some 8⟩

def exp1Row : ExperienceRow :=
  ⟨"exp1", "user1", "Software Engineer", some "work", "2020-01-01", some "2022-12-31"⟩

def testimonial1Row : TestimonialRow := ⟨"test1", "user1", "Acme Corp", some "Great"⟩

def post1Row : BlogPostRow := ⟨"post1", "user1", "How to Code", some "basics", "2023-10-05"⟩

def comment1Row : CommentRow := ⟨"comment1", "project1", some "Alice", "Nice", "2023-10-05"⟩

def comment2Row : CommentRow := ⟨"comment2", "project2", some "Bob", "Wow", "2023-10-05"⟩

def profile1Row : UserProfileRow := ⟨"user1", none, none, none, none, none, none⟩

/-- A populated store: two users, and one of each owned entity for `user1`. -/
def dbW : DB :=
  { users := [user1Row, user2Row]
    user_profiles := [profile1Row]
    user_settings := []
    projects := [project1Row]
    skills := [skill1Row]
    experience_timeline := [exp1Row]
    testimonials := [testimonial1Row]
    blog_posts := [post1Row]
    comments := [comment1Row, comment2Row]
    visitor_messages := []
    analytics := [] }

/- ## Helper lemmas -/

theorem find?_append_singleton_of_none {α} (p : α → Bool) (l : List α) (a : α)
    (h : l.find? p = none) (ha : p a = true) : (l ++ [a]).find? p = some a := by
  induction l with
  | nil => simp [List.find?, ha]
  | cons x xs ih =>
    simp only [List.find?] at h
    cases hx : p x with
    | true => rw [hx] at h; exact absurd h (by simp)
    | false =>
      rw [hx] at h
      simpa [List.find?, hx] using ih h

theorem filter_not_filter_self {α} (p : α → Bool) (l : List α) :
    (l.filter (fun a => !(p a))).filter p = [] := by
  induction l with
  | nil => rfl
  | cons x xs ih =>
    cases hx : p x with
    | true => simp [List.filter_cons, hx, ih]
    | false => simp [List.filter_cons, hx, ih]

theorem find?_filter_not_self {α} (p : α → Bool) (l : List α) :
    (l.filter (fun a => !(p a))).find? p = none := by
  induction l with
  | nil => rfl
  | cons x xs ih =>
    cases hx : p x with
    | true => simp [List.filter_cons, hx, ih]
    | false => simp [List.filter_cons, List.find?, hx, ih]

/-- Whenever an email is present, the password-reset handler answers with the
same fixed acknowledgment and leaves the store unchanged, in both lookup
branches. -/
theorem passwordReset_ack (db : DB) (e : String) (he : e ≠ "") :
    passwordResetHandler db (some e) =
      (⟨200, .messageJson "If an account with that email exists, a password reset link has been sent."⟩, db) := by
  unfold passwordResetHandler
  dsimp only
  rw [if_neg he]
  cases db.users.find? (fun u => u.email == jsLowerTrim e) with
  | none => rfl
  | some u => rfl

/-- Claim C9 (confirmed): `POST /api/auth/password-reset` is non-interfering
with respect to account existence: for a request email matching an existing
user and one matching none, the HTTP status (200) and the response body (the
same acknowledgment message) are identical, so a caller cannot distinguish
whether an account with that email exists. -/
theorem C9_password_reset_noninterference (db : DB) (e1 e2 : String)
    (h1 : e1 ≠ "") (h2 : e2 ≠ "")
    (hex : (db.users.find? (fun u => u.email == jsLowerTrim e1)).isSome = true)
    (hnx : db.users.find? (fun u => u.email == jsLowerTrim e2) = none) :
    passwordResetHandler db (some e1) = passwordResetHandler db (some e2) ∧
    (passwordResetHandler db (some e1)).1.status = 200 ∧
    (passwordResetHandler db (some e1)).1.body =
      .messageJson "If an account with that email exists, a password reset link has been sent." ∧
    (passwordResetHandler db (some e1)).2 = db := by
  rw [passwordReset_ack db e1 h1, passwordReset_ack db e2 h2]
  exact ⟨rfl, rfl, rfl, rfl⟩

/-- Witness for C9 at a concrete store: `A@X.com` normalizes onto the stored
`a@x.com` account, `nobody@x.com` matches none. -/
theorem C9_password_reset_noninterference_witness :
    passwordResetHandler dbW (some "A@X.com") =
      passwordResetHandler dbW (some "nobody@x.com") ∧
    (passwordResetHandler dbW (some "A@X.com")).1.status = 200 ∧
    (passwordResetHandler dbW (some "A@X.com")).1.body =
      .messageJson "If an account with that email exists, a password reset link has been sent." ∧
    (passwordResetHandler dbW (some "A@X.com")).2 = dbW :=
  C9_password_reset_noninterference dbW "A@X.com" "nobody@x.com"
    (by decide) (by decide) (by rfl) (by rfl)

/-- Claim C6 (confirmed): a successful `DELETE /api/projects/:project_id`
answers `204` with an empty body, the comments table afterwards holds
exactly the comments of other projects (so the comment count for the deleted
project id is 0), and the project row is gone; the handler deletes the
dependent comments before the project row, as the final-state equation on
`comments` shows. -/
theorem C6_delete_project_cascade (db : DB) (pr : Principal) (pid : String)
    (row : ProjectRow)
    (hf : db.projects.find? (fun p => p.project_id == pid) = some row)
    (hown : row.user_id = pr.user_id) :
    (deleteProjectHandler db pr pid).1 = ⟨204, .empty⟩ ∧
    ((deleteProjectHandler db pr pid).2.comments.filter
        (fun c => c.project_id == pid)).length = 0 ∧
    (deleteProjectHandler db pr pid).2.projects.find?
        (fun p => p.project_id == pid) = none ∧
    (deleteProjectHandler db pr pid).2.comments =
      db.comments.filter (fun c => !(c.project_id == pid)) := by
  unfold deleteProjectHandler
  rw [hf]
  dsimp only
  rw [if_neg (fun h => h hown)]
  refine ⟨rfl, ?_, ?_, rfl⟩
  · rw [show (db.comments.filter (fun c => !(c.project_id == pid))).filter
        (fun c => c.project_id == pid) = [] from
      filter_not_filter_self (fun c : CommentRow => c.project_id == pid) db.comments]
    rfl
  · exact find?_filter_not_self (fun p : ProjectRow => p.project_id == pid) db.projects

/-- Witness for C6: deleting `project1` from the populated store. -/
theorem C6_delete_project_cascade_witness :
    (deleteProjectHandler dbW principal1 "project1").1 = ⟨204, .empty⟩ ∧
    ((deleteProjectHandler dbW principal1 "project1").2.comments.filter
        (fun c => c.project_id == "project1")).length = 0 ∧
    (deleteProjectHandler dbW principal1 "project1").2.projects.find?
        (fun p => p.project_id == "project1") = none ∧
    (deleteProjectHandler dbW principal1 "project1").2.comments =
      dbW.comments.filter (fun c => !(c.project_id == "project1")) :=
  C6_delete_project_cascade dbW principal1 "project1" project1Row (by rfl) (by rfl)

/-- Claim C1 (confirmed): for every owner-guarded mutate/read endpoint
(profile update, settings update, project/skill/experience/testimonial/
blog-post create/update/delete, analytics read), whenever the authenticated
principal's id differs from the target resource's owner id, the response is
`403` with that endpoint's `FORBIDDEN` envelope and the store is unchanged —
for any request body whatsoever, valid or not. -/
theorem C1_ownership_forbidden (op : OwnedOp) (db : DB) (pr : Principal)
    (o : String) (ho : ownerOf op db = some o) (hne : o ≠ pr.user_id) :
    runOwnedOp op db pr = (⟨403, .errorEnv (forbiddenEnvOf op)⟩, db) := by
  cases op with
  | updateProfile uid body =>
    simp only [ownerOf, Option.some.injEq] at ho
    subst ho
    simp only [runOwnedOp, forbiddenEnvOf]
    unfold patchUserProfileHandler
    rw [if_pos (Ne.symm hne)]
  | updateSettings uid body =>
    simp only [ownerOf, Option.some.injEq] at ho
    subst ho
    simp only [runOwnedOp, forbiddenEnvOf]
    unfold patchUserSettingsHandler
    rw [if_pos (Ne.symm hne)]
  | createProject uid body nid =>
    simp only [ownerOf, Option.some.injEq] at ho
    subst ho
    simp only [runOwnedOp, forbiddenEnvOf]
    unfold createProjectHandler
    rw [if_pos (Ne.symm hne)]
  | updateProject pid body =>
    simp only [ownerOf] at ho
    cases hf : db.projects.find? (fun p => p.project_id == pid) with
    | none => rw [hf] at ho; simp at ho
    | some row =>
      rw [hf] at ho
      simp only [Option.map_some', Option.some.injEq] at ho
      subst ho
      simp only [runOwnedOp, forbiddenEnvOf]
      unfold patchProjectHandler
      rw [hf]
      dsimp only
      rw [if_pos hne]
  | deleteProject pid =>
    simp only [ownerOf] at ho
    cases hf : db.projects.find? (fun p => p.project_id == pid) with
    | none => rw [hf] at ho; simp at ho
    | some row =>
      rw [hf] at ho
      simp only [Option.map_some', Option.some.injEq] at ho
      subst ho
      simp only [runOwnedOp, forbiddenEnvOf]
      unfold deleteProjectHandler
      rw [hf]
      dsimp only
      rw [if_pos hne]
  | createSkill uid body nid =>
    simp only [ownerOf, Option.some.injEq] at ho
    subst ho
    simp only [runOwnedOp, forbiddenEnvOf]
    unfold createSkillHandler
    rw [if_pos (Ne.symm hne)]
  | updateSkill sid body =>
    simp only [ownerOf] at ho
    cases hf : db.skills.find? (fun s => s.skill_id == sid) with
    | none => rw [hf] at ho; simp at ho
    | some row =>
      rw [hf] at ho
      simp only [Option.map_some', Option.some.injEq] at ho
      subst ho
      simp only [runOwnedOp, forbiddenEnvOf]
      unfold patchSkillHandler
      rw [hf]
      dsimp only
      rw [if_pos hne]
  | deleteSkill sid =>
    simp only [ownerOf] at ho
    cases hf : db.skills.find? (fun s => s.skill_id == sid) with
    | none => rw [hf] at ho; simp at ho
    | some row =>
      rw [hf] at ho
      simp only [Option.map_some', Option.some.injEq] at ho
      subst ho
      simp only [runOwnedOp, forbiddenEnvOf]
      unfold deleteSkillHandler
      rw [hf]
      dsimp only
      rw [if_pos hne]
  | createExperience uid body nid =>
    simp only [ownerOf, Option.some.injEq] at ho
    subst ho
    simp only [runOwnedOp, forbiddenEnvOf]
    unfold createExperienceHandler
    rw [if_pos (Ne.symm hne)]
  | updateExperience eid body =>
    simp only [ownerOf] at ho
    cases hf : db.experience_timeline.find? (fun e => e.experience_id == eid) with
    | none => rw [hf] at ho; simp at ho
    | some row =>
      rw [hf] at ho
      simp only [Option.map_some', Option.some.injEq] at ho
      subst ho
      simp only [runOwnedOp, forbiddenEnvOf]
      unfold patchExperienceHandler
      rw [hf]
      dsimp only
      rw [if_pos hne]
  | deleteExperience eid =>
    simp only [ownerOf] at ho
    cases hf : db.experience_timeline.find? (fun e => e.experience_id == eid) with
    | none => rw [hf] at ho; simp at ho
    | some row =>
      rw [hf] at ho
      simp only [Option.map_some', Option.some.injEq] at ho
      subst ho
      simp only [runOwnedOp, forbiddenEnvOf]
      unfold deleteExperienceHandler
      rw [hf]
      dsimp only
      rw [if_pos hne]
  | createTestimonial uid body nid =>
    simp only [ownerOf, Option.some.injEq] at ho
    subst ho
    simp only [runOwnedOp, forbiddenEnvOf]
    unfold createTestimonialHandler
    rw [if_pos (Ne.symm hne)]
  | updateTestimonial tid body =>
    simp only [ownerOf] at ho
    cases hf : db.testimonials.find? (fun t => t.testimonial_id == tid) with
    | none => rw [hf] at ho; simp at ho
    | some row =>
      rw [hf] at ho
      simp only [Option.map_some', Option.some.injEq] at ho
      subst ho
      simp only [runOwnedOp, forbiddenEnvOf]
      unfold patchTestimonialHandler
      rw [hf]
      dsimp only
      rw [if_pos hne]
  | deleteTestimonial tid =>
    simp only [ownerOf] at ho
    cases hf : db.testimonials.find? (fun t => t.testimonial_id == tid) with
    | none => rw [hf] at ho; simp at ho
    | some row =>
      rw [hf] at ho
      simp only [Option.map_some', Option.some.injEq] at ho
      subst ho
      simp only [runOwnedOp, forbiddenEnvOf]
      unfold deleteTestimonialHandler
      rw [hf]
      dsimp only
      rw [if_pos hne]
  | createBlogPost uid body nid now =>
    simp only [ownerOf, Option.some.injEq] at ho
    subst ho
    simp only [runOwnedOp, forbiddenEnvOf]
    unfold createBlogPostHandler
    rw [if_pos (Ne.symm hne)]
  | updateBlogPost bid body =>
    simp only [ownerOf] at ho
    cases hf : db.blog_posts.find? (fun b => b.post_id == bid) with
    | none => rw [hf] at ho; simp at ho
    | some row =>
      rw [hf] at ho
      simp only [Option.map_some', Option.some.injEq] at ho
      subst ho
      simp only [runOwnedOp, forbiddenEnvOf]
      unfold patchBlogPostHandler
      rw [hf]
      dsimp only
      rw [if_pos hne]
  | deleteBlogPost bid =>
    simp only [ownerOf] at ho
    cases hf : db.blog_posts.find? (fun b => b.post_id == bid) with
    | none => rw [hf] at ho; simp at ho
    | some row =>
      rw [hf] at ho
      simp only [Option.map_some', Option.some.injEq] at ho
      subst ho
      simp only [runOwnedOp, forbiddenEnvOf]
      unfold deleteBlogPostHandler
      rw [hf]
      dsimp only
      rw [if_pos hne]
  | readAnalytics uid nid =>
    simp only [ownerOf, Option.some.injEq] at ho
    subst ho
    simp only [runOwnedOp, forbiddenEnvOf]
    unfold getAnalyticsHandler
    rw [if_pos (Ne.symm hne)]

/-- Witness for C1: `user2` hitting three of `user1`'s endpoints (a lookup
mutation, a path-guarded profile update, and the analytics read) on the
populated store, with an arbitrary (even invalid) body. -/
theorem C1_ownership_forbidden_witness :
    runOwnedOp (.updateProject "project1" (.obj [])) dbW principal2 =
      (⟨403, .errorEnv (forbiddenEnvOf (.updateProject "project1" (.obj [])))⟩, dbW) ∧
    runOwnedOp (.updateProfile "user1" (.num 7)) dbW principal2 =
      (⟨403, .errorEnv (forbiddenEnvOf (.updateProfile "user1" (.num 7)))⟩, dbW) ∧
    runOwnedOp (.readAnalytics "user1" "a9") dbW principal2 =
      (⟨403, .errorEnv (forbiddenEnvOf (.readAnalytics "user1" "a9"))⟩, dbW) :=
  ⟨C1_ownership_forbidden (.updateProject "project1" (.obj [])) dbW principal2
      "user1" (by rfl) (by decide),
   C1_ownership_forbidden (.updateProfile "user1" (.num 7)) dbW principal2
      "user1" (by rfl) (by decide),
   C1_ownership_forbidden (.readAnalytics "user1" "a9") dbW principal2
      "user1" (by rfl) (by decide)⟩

/-- Claim C2 (confirmed): for every mutation/deletion of an existing owned
resource (project, skill, experience, testimonial, blog post), when the
identified resource does not exist (`ownerOf` resolves no owner) the
response is `404` with the endpoint's not-found envelope and the store is
unchanged — for every principal, owner or not, because the existence lookup
is evaluated before the ownership comparison; so a non-owner probing a
nonexistent id receives `NotFound`, never `Forbidden`. -/
theorem C2_notfound_before_ownership (op : OwnedOp) (db : DB) (pr : Principal)
    (hmut : isExistingResourceMutation op = true)
    (ho : ownerOf op db = none) :
    runOwnedOp op db pr = (⟨404, .errorEnv (notFoundEnvOf op)⟩, db) := by
  cases op with
  | updateProfile uid body => simp [isExistingResourceMutation] at hmut
  | updateSettings uid body => simp [isExistingResourceMutation] at hmut
  | createProject uid body nid => simp [isExistingResourceMutation] at hmut
  | createSkill uid body nid => simp [isExistingResourceMutation] at hmut
  | createExperience uid body nid => simp [isExistingResourceMutation] at hmut
  | createTestimonial uid body nid => simp [isExistingResourceMutation] at hmut
  | createBlogPost uid body nid now => simp [isExistingResourceMutation] at hmut
  | readAnalytics uid nid => simp [isExistingResourceMutation] at hmut
  | updateProject pid body =>
    simp only [ownerOf, Option.map_eq_none'] at ho
    simp only [runOwnedOp, notFoundEnvOf]
    unfold patchProjectHandler
    rw [ho]
  | deleteProject pid =>
    simp only [ownerOf, Option.map_eq_none'] at ho
    simp only [runOwnedOp, notFoundEnvOf]
    unfold deleteProjectHandler
    rw [ho]
  | updateSkill sid body =>
    simp only [ownerOf, Option.map_eq_none'] at ho
    simp only [runOwnedOp, notFoundEnvOf]
    unfold patchSkillHandler
    rw [ho]
  | deleteSkill sid =>
    simp only [ownerOf, Option.map_eq_none'] at ho
    simp only [runOwnedOp, notFoundEnvOf]
    unfold deleteSkillHandler
    rw [ho]
  | updateExperience eid body =>
    simp only [ownerOf, Option.map_eq_none'] at ho
    simp only [runOwnedOp, notFoundEnvOf]
    unfold patchExperienceHandler
    rw [ho]
  | deleteExperience eid =>
    simp only [ownerOf, Option.map_eq_none'] at ho
    simp only [runOwnedOp, notFoundEnvOf]
    unfold deleteExperienceHandler
    rw [ho]
  | updateTestimonial tid body =>
    simp only [ownerOf, Option.map_eq_none'] at ho
    simp only [runOwnedOp, notFoundEnvOf]
    unfold patchTestimonialHandler
    rw [ho]
  | deleteTestimonial tid =>
    simp only [ownerOf, Option.map_eq_none'] at ho
    simp only [runOwnedOp, notFoundEnvOf]
    unfold deleteTestimonialHandler
    rw [ho]
  | updateBlogPost bid body =>
    simp only [ownerOf, Option.map_eq_none'] at ho
    simp only [runOwnedOp, notFoundEnvOf]
    unfold patchBlogPostHandler
    rw [ho]
  | deleteBlogPost bid =>
    simp only [ownerOf, Option.map_eq_none'] at ho
    simp only [runOwnedOp, notFoundEnvOf]
    unfold deleteBlogPostHandler
    rw [ho]

/-- Witness for C2: a non-owner (`user2`) probing nonexistent ids receives
the not-found response, not `Forbidden`. -/
theorem C2_notfound_before_ownership_witness :
    runOwnedOp (.deleteSkill "nosuch") dbW principal2 =
      (⟨404, .errorEnv (notFoundEnvOf (.deleteSkill "nosuch"))⟩, dbW) ∧
    runOwnedOp (.updateBlogPost "ghost" (.obj [])) dbW principal2 =
      (⟨404, .errorEnv (notFoundEnvOf (.updateBlogPost "ghost" (.obj [])))⟩, dbW) :=
  ⟨C2_notfound_before_ownership (.deleteSkill "nosuch") dbW principal2
      (by rfl) (by rfl),
   C2_notfound_before_ownership (.updateBlogPost "ghost" (.obj [])) dbW principal2
      (by rfl) (by rfl)⟩

/-- Store for the analytics lazy-creation claim: `user1` with no analytics
row. -/
def dbC7 : DB := { emptyDB with users := [user1Row] }

/-- Claim C7 (code bug): the authenticated owner's first
`GET /api/analytics/:user_id` does create exactly one zero-initialized
analytics row (`visit_count` 0, `popular_projects` text
`\x7b"popular":[]\x7d`), but the response is `500`, not the claimed `200`:
the re-read hands the handler driver-parsed OBJECTS for the two non-NULL
json columns, and the handler's own `JSON.parse` applied to an object
coerces it to `"[object Object]"` and throws into the generic catch.  A
subsequent read finds the row, creates no second one, and fails the same
way.  The last conjunct exhibits the stored text as a JSON object — exactly
what the driver parses and the handler then re-`JSON.parse`s. -/
theorem C7_analytics_lazy_create_500 :
    getAnalyticsHandler dbC7 principal1 "user1" "an1" =
      (internalError,
       { dbC7 with analytics :=
          [⟨"an1", "user1", 0, some popularInitText, some interactionInitText⟩] }) ∧
    getAnalyticsHandler (getAnalyticsHandler dbC7 principal1 "user1" "an1").2
        principal1 "user1" "an2" =
      (internalError,
       { dbC7 with analytics :=
          [⟨"an1", "user1", 0, some popularInitText, some interactionInitText⟩] }) ∧
    jsonParse popularInitText = some (.obj [("popular", .arr [])]) ∧
    jsonParse interactionInitText =
      some (.obj [("views", .num 0), ("comments", .num 0), ("contacts", .num 0)]) :=
  ⟨rfl, rfl, rfl, rfl⟩

/-- Store for the project partial-update claim: `user1` and their project
with a description, an images list and a URL. -/
def dbC3 : DB := { emptyDB with users := [user1Row], projects := [project1Row] }

/-- Claim C3 (code bug): `PATCH /api/projects/:project_id` is NOT a selective
partial update.  The handler validates `req.body` with the full
`createProjectInputSchema` (which requires `user_id` and `title`), so the
owner sending exactly `\x7b title: "X" \x7d` gets a Zod failure routed to the
generic catch — `500`, store unchanged — while the repository's own test
expects `200` with the title updated; and a payload that does validate
overwrites `description`, `images` and `project_url` with NULL instead of
leaving the prior values (`"desc"`, the stored images text, the URL)
untouched. -/
theorem C3_patch_project_not_selective :
    patchProjectHandler dbC3 principal1 "project1" (.obj [("title", .str "X")]) =
      (internalError, dbC3) ∧
    patchProjectHandler dbC3 principal1 "project1"
        (.obj [("user_id", .str "user1"), ("title", .str "X")]) =
      (⟨200, .projectJson "project1" "user1" "X" none [] none⟩,
       { dbC3 with projects := [⟨"project1", "user1", "X", none, none, none⟩] }) ∧
    project1Row.description = some "desc" ∧
    project1Row.images = some (stringifyImages ["https://img.example/1"]) ∧
    project1Row.project_url = some "https://example.com/p" :=
  ⟨rfl, rfl, rfl, rfl, rfl⟩

/-- The duplicate-registration request: same email both times, with capital
letters. -/
def regBody : JsonVal :=
  .obj [("email", .str "A@X.com"), ("password_hash", .str "p"), ("name", .str "A")]

/-- Claim C4 (code bug): registering the same email twice (case-insensitively
equal — here even byte-equal, but capitalized).  The first attempt stores the
lowercased `a@x.com` and answers 200; the second attempt's duplicate check
queries the RAW email `A@X.com`, misses the stored row, and the insert then
hits the `users.email` unique constraint, so the response is the generic
`500 INTERNAL_SERVER_ERROR` — not the `400` Conflict envelope — though no
second user row is created. -/
theorem C4_duplicate_email_not_conflict :
    (registerHandler emptyDB regBody "u1" "t1").1.status = 200 ∧
    (registerHandler emptyDB regBody "u1" "t1").2.users.map (fun u => u.email) =
      ["a@x.com"] ∧
    registerHandler (registerHandler emptyDB regBody "u1" "t1").2 regBody "u2" "t2" =
      (internalError, (registerHandler emptyDB regBody "u1" "t1").2) ∧
    (registerHandler emptyDB regBody "u1" "t1").2.users.length = 1 :=
  ⟨rfl, rfl, rfl, rfl⟩

def dbC10a : DB := { emptyDB with users := [user1Row] }

def analytics1Row : AnalyticsRow :=
  ⟨"analytics1", "user1", 100, some "\x7b\"popular\":[\"project1\"]\x7d",
   some "\x7b\"clicks\":50\x7d"⟩

def dbC10b : DB := { dbC10a with analytics := [analytics1Row] }

def contactBody : JsonVal := .obj [("visitor_message", .str "hi")]

/-- Claim C10 (code bug): `POST /api/contact/:user_id` on an existing user
inserts exactly one visitor message and leaves the analytics table entirely
unchanged — but it then answers `500`, not `200`, whether or not an
analytics row exists, because the contacts-increment `UPDATE` concatenates
the `jsonb` column with the non-JSON literal fragment `'\x7b"contacts": '`
(shown malformed by the last conjunct) and therefore raises; an existing
row's contacts counter is never incremented. -/
theorem C10_contact_analytics_update_raises :
    contactHandler dbC10a "user1" contactBody "m1" "t1" =
      (internalError,
       { dbC10a with visitor_messages := [⟨"m1", "user1", none, "hi", "t1"⟩] }) ∧
    contactHandler dbC10b "user1" contactBody "m2" "t2" =
      (internalError,
       { dbC10b with visitor_messages := [⟨"m2", "user1", none, "hi", "t2"⟩] }) ∧
    (contactHandler dbC10b "user1" contactBody "m2" "t2").2.analytics =
      [analytics1Row] ∧
    jsonParse contactsLitOpen = none :=
  ⟨rfl, rfl, rfl, rfl⟩

/-- Store for the error-mapping claim: `user1` with an empty profile row. -/
def dbC5 : DB := { emptyDB with users := [user1Row], user_profiles := [profile1Row] }

/-- Counterexample to claim C5: a payload the Validator rejects (`bio` of the
wrong type) is answered by the owner's `PATCH /api/users/:user_id` with
`500 INTERNAL_SERVER_ERROR`, not `400`; and a verified token whose subject
does not exist is answered `401`, not `403`. -/
theorem C5_error_mapping_counterexample :
    parseUpdateUserProfileInput (withUserId "user1" (.obj [("bio", .num 42)])) = none ∧
    patchUserProfileHandler dbC5 principal1 "user1" (.obj [("bio", .num 42)]) =
      (internalError, dbC5) ∧
    (patchUserProfileHandler dbC5 principal1 "user1" (.obj [("bio", .num 42)])).1.status ≠ 400 ∧
    authenticateToken dbC5 (.payload "ghost" "g@x.com") =
      .error ⟨401, .errorEnv ⟨"Invalid token", some "AUTH_TOKEN_INVALID"⟩⟩ ∧
    (401 : Nat) ≠ 403 :=
  ⟨rfl, rfl, by decide, rfl, by decide⟩

/-- Claim C5 as amended: Validator rejections fall into the handler's generic
catch and yield `500 INTERNAL_SERVER_ERROR` (never a 400 validation
envelope); a missing token maps to `401`, a token failing verification to
`403`, a verified token with no surviving user to `401`, ownership mismatch
(`Forbidden`) to `403`, and a missing resource (`NotFound`) to `404`. -/
theorem C5_error_mapping_amended :
    (∀ (db : DB) (pr : Principal) (uid : String) (body : JsonVal),
      pr.user_id = uid →
      parseUpdateUserProfileInput (withUserId uid body) = none →
      patchUserProfileHandler db pr uid body = (internalError, db)) ∧
    (∀ db : DB, authenticateToken db .missing =
      .error ⟨401, .errorEnv ⟨"Access token required", some "AUTH_TOKEN_MISSING"⟩⟩) ∧
    (∀ db : DB, authenticateToken db .malformed =
      .error ⟨403, .errorEnv ⟨"Invalid or expired token", some "AUTH_TOKEN_INVALID"⟩⟩) ∧
    (∀ (db : DB) (uid em : String),
      db.users.find? (fun u => u.user_id == uid) = none →
      authenticateToken db (.payload uid em) =
        .error ⟨401, .errorEnv ⟨"Invalid token", some "AUTH_TOKEN_INVALID"⟩⟩) ∧
    (∀ (db : DB) (pr : Principal) (pid : String) (body : JsonVal) (row : ProjectRow),
      db.projects.find? (fun p => p.project_id == pid) = some row →
      row.user_id ≠ pr.user_id →
      patchProjectHandler db pr pid body =
        (⟨403, .errorEnv ⟨"Cannot update another user\x27s project", some "FORBIDDEN"⟩⟩, db)) ∧
    (∀ (db : DB) (pr : Principal) (pid : String) (body : JsonVal),
      db.projects.find? (fun p => p.project_id == pid) = none →
      patchProjectHandler db pr pid body =
        (⟨404, .errorEnv ⟨"Project not found", some "PROJECT_NOT_FOUND"⟩⟩, db)) := by
  refine ⟨?_, fun db => rfl, fun db => rfl, ?_, ?_, ?_⟩
  · intro db pr uid body hpr hparse
    unfold patchUserProfileHandler
    rw [if_neg (fun h => h hpr), hparse]
  · intro db uid em hfind
    unfold authenticateToken
    dsimp only
    rw [hfind]
  · intro db pr pid body row hf hne
    unfold patchProjectHandler
    rw [hf]
    dsimp only
    rw [if_pos hne]
  · intro db pr pid body hf
    unfold patchProjectHandler
    rw [hf]

/-- Witness for the amended C5 at concrete inputs. -/
theorem C5_error_mapping_amended_witness :
    patchUserProfileHandler dbC5 principal1 "user1" (.obj [("bio", .bool true)]) =
      (internalError, dbC5) ∧
    authenticateToken dbC5 .missing =
      .error ⟨401, .errorEnv ⟨"Access token required", some "AUTH_TOKEN_MISSING"⟩⟩ ∧
    authenticateToken dbC5 .malformed =
      .error ⟨403, .errorEnv ⟨"Invalid or expired token", some "AUTH_TOKEN_INVALID"⟩⟩ ∧
    authenticateToken dbC5 (.payload "nobody" "n@x.com") =
      .error ⟨401, .errorEnv ⟨"Invalid token", some "AUTH_TOKEN_INVALID"⟩⟩ ∧
    patchProjectHandler dbW principal2 "project1" (.obj []) =
      (⟨403, .errorEnv ⟨"Cannot update another user\x27s project", some "FORBIDDEN"⟩⟩, dbW) ∧
    patchProjectHandler dbW principal2 "missing" (.obj []) =
      (⟨404, .errorEnv ⟨"Project not found", some "PROJECT_NOT_FOUND"⟩⟩, dbW) :=
  ⟨C5_error_mapping_amended.1 dbC5 principal1 "user1" (.obj [("bio", .bool true)])
      rfl (by rfl),
   C5_error_mapping_amended.2.1 dbC5,
   C5_error_mapping_amended.2.2.1 dbC5,
   C5_error_mapping_amended.2.2.2.1 dbC5 "nobody" "n@x.com" (by rfl),
   C5_error_mapping_amended.2.2.2.2.1 dbW principal2 "project1" (.obj []) project1Row
      (by rfl) (by decide),
   C5_error_mapping_amended.2.2.2.2.2 dbW principal2 "missing" (.obj []) (by rfl)⟩

/-- Counterexample to claim C8: a `.txt` upload to `/api/upload/profile` is
rejected with no file written, but the response status is `500` (multer's
filter error reaching Express's default handler), not an `UploadRejected`
`400`. -/
theorem C8_upload_reject_counterexample :
    uploadRoute (some ⟨"notes.txt", "text/plain", 10⟩) "profile" 1700000000000 123456789 =
      (⟨500, .defaultErrorHtml "Only image files are allowed"⟩, none) ∧
    (uploadRoute (some ⟨"notes.txt", "text/plain", 10⟩) "profile" 1700000000000 123456789).1.status ≠ 400 :=
  ⟨rfl, by decide⟩

/-- Claim C8 as amended: a file failing the image policy (extension and
declared content-type must BOTH match, per the last-but-one conjunct) is
rejected with no file written to storage, but through the framework's
default error handler as a `500`, not an `UploadRejected` `400`; an accepted
upload of at most 5 MiB is stored under the server-generated
`Date.now()-random + original extension` filename — never the client name —
and the response returns the public URL, generated filename, original
filename and byte size. -/
theorem C8_upload_amended :
    (∀ (f : UploadFile) (t : String) (nowMs rand : Nat),
      fileFilterAccepts f = false →
      uploadRoute (some f) t nowMs rand =
        (⟨500, .defaultErrorHtml "Only image files are allowed"⟩, none)) ∧
    (∀ (f : UploadFile) (t : String) (nowMs rand : Nat),
      fileFilterAccepts f = true → f.size ≤ 5 * 1024 * 1024 →
      uploadRoute (some f) t nowMs rand =
        (⟨200, .uploadJson ("/uploads/" ++ t ++ "/" ++ genFilename nowMs rand f.originalname)
            (genFilename nowMs rand f.originalname) f.originalname f.size⟩,
         some ⟨destDirFor t, genFilename nowMs rand f.originalname, f.size⟩)) ∧
    (∀ f : UploadFile, fileFilterAccepts f =
      (allowedTypesTest f.mimetype &&
        allowedTypesTest (jsToLowerCase (extname f.originalname)))) ∧
    (∀ (nowMs rand : Nat) (orig : String),
      genFilename nowMs rand orig =
        toString nowMs ++ "-" ++ toString rand ++ extname orig) := by
  refine ⟨?_, ?_, fun f => rfl, fun n r o => rfl⟩
  · intro f t nowMs rand hr
    unfold uploadRoute
    dsimp only
    rw [if_pos hr]
  · intro f t nowMs rand hr hsz
    unfold uploadRoute
    dsimp only
    rw [hr]
    rw [if_neg (by decide : ¬(true = false))]
    rw [if_neg (Nat.not_lt.mpr hsz)]

/-- Witness for the amended C8: a rejected non-image and an accepted PNG. -/
theorem C8_upload_amended_witness :
    uploadRoute (some ⟨"cv.txt", "application/pdf", 10⟩) "project" 1 2 =
      (⟨500, .defaultErrorHtml "Only image files are allowed"⟩, none) ∧
    uploadRoute (some ⟨"pic.png", "image/png", 100⟩) "profile" 5 7 =
      (⟨200, .uploadJson ("/uploads/" ++ "profile" ++ "/" ++ genFilename 5 7 "pic.png")
          (genFilename 5 7 "pic.png") "pic.png" 100⟩,
       some ⟨destDirFor "profile", genFilename 5 7 "pic.png", 100⟩) :=
  ⟨C8_upload_amended.1 ⟨"cv.txt", "application/pdf", 10⟩ "project" 1 2 (by rfl),
   C8_upload_amended.2.1 ⟨"pic.png", "image/png", 100⟩ "profile" 5 7 (by rfl) (by decide)⟩
